import Mathlib

/-!
Verification of the stdin-to-file copier (`src/main.rs`) against its
specification.  The program reads its argument list, reads all of standard
input as text, writes the text to the file named by the first positional
argument, queries the written file's metadata for its byte length, and
prints a success line.  We give a shallow embedding of `main` as a pure
function of the argument list, an environment recording the outcome of each
I/O primitive, and an initial file-system state.
-/

namespace StdinToFile

/-- A file system, modelled as an association list from paths to the string
contents stored at each path (`fs::write` stores the UTF-8 bytes of a
string, so string equality is byte equality for valid text). -/
abbrev FS := List (String × String)

/-- Look up the contents of the file at path `p` (`none` if no such file). -/
def fsRead (fs : FS) (p : String) : Option String :=
  (fs.find? (fun e => e.1 == p)).map (·.2)

/-- `fs::write p c`: create the file at `p` if absent, truncate/overwrite it
if present, leaving contents exactly `c`. -/
def fsWrite (fs : FS) (p c : String) : FS :=
  (p, c) :: fs.eraseP (fun e => e.1 == p)

/-- How a run of the process terminates: a normal `process::exit(code)`, or a
Rust panic (out-of-bounds index, failed `unwrap`), which is an abnormal
termination whose exit code is not 1. -/
inductive ExitKind where
  | exited (code : Nat)
  | panicked
  deriving DecidableEq, Repr

deriving instance DecidableEq for Except

/-- The outcome of `fs::write(filename, content)`, which opens the file
with create+truncate semantics (`File::create`) and then writes the whole
buffer (`write_all`):
- `ok`: the file was created (or truncated) and holds exactly `content`;
- `createError e`: opening/creating the file itself failed (missing parent
  directory, permissions, ...) — nothing is created at the target path;
- `writeError e n`: the file was created/truncated but the subsequent
  write failed (disk full, quota, device error, ...) after storing only a
  prefix of the content — modelled as the first `n` characters; the
  partial file remains on disk (no rollback). -/
inductive WriteOutcome where
  | ok
  | createError (e : String)
  | writeError (e : String) (n : Nat)
  deriving DecidableEq, Repr

/-- The outcome of each fallible I/O primitive the program calls, fixed by
the environment of the run:
`stdinRead` is the result of `io::stdin().read_to_string` (the content read,
or the error displayed as a string);
`writeOutcome` is the result of `fs::write` (see `WriteOutcome`);
`metadataOutcome` is the result of `fs::metadata` after the write (the
on-disk byte length, or an error). -/
structure Env where
  stdinRead : Except String String
  writeOutcome : WriteOutcome
  metadataOutcome : Except String Nat
  deriving DecidableEq, Repr

/-- The observable result of one run: how it terminated, the lines printed
to standard output and to standard error by the program itself, and the
final file-system state. -/
structure RunResult where
  exit : ExitKind
  stdout : List String
  stderr : List String
  fs : FS
  deriving DecidableEq, Repr

/-- The success line printed on standard output (src/main.rs line 23):
`✓ Created: <filename> (<len> bytes)`. -/
def successLine (filename : String) (len : Nat) : String :=
  "✓ Created: " ++ filename ++ " (" ++ toString len ++ " bytes)"

/-- Shallow embedding of `main` (src/main.rs lines 6-24).
`args` is `env::args().collect()` (so `args.head?` is the program name).
- lines 8-12: if `args.len() < 2`, print the two usage lines to stderr and
  `process::exit(1)`; but `args[0]` on an empty vector panics first.
- line 13: `filename = &args[1]`.
- lines 15-18: read stdin; on error print `Error reading stdin: <e>` to
  stderr and exit 1.
- lines 19-22: `fs::write(filename, content)`; on error print
  `Error writing file: <e>` to stderr and exit 1.  If creating/opening the
  file failed the file system is untouched; if the file was created but the
  write then failed, the partial file (a prefix of the content) remains at
  the target path — no rollback.
- line 23: `fs::metadata(filename).unwrap()` — a metadata failure panics;
  on success print the success line and return (exit code 0). -/
def main_run (args : List String) (env : Env) (fs0 : FS) : RunResult :=
  match args with
  | [] =>
    -- args.len() < 2, and `args[0]` is out of bounds: panic before printing.
    ⟨.panicked, [], [], fs0⟩
  | [a0] =>
    ⟨.exited 1, [],
      ["Usage: " ++ a0 ++ " <filename>", "Content will be read from stdin"], fs0⟩
  | _ :: filename :: _ =>
    match env.stdinRead with
    | .error e => ⟨.exited 1, [], ["Error reading stdin: " ++ e], fs0⟩
    | .ok content =>
      match env.writeOutcome with
      | .createError e => ⟨.exited 1, [], ["Error writing file: " ++ e], fs0⟩
      | .writeError e n =>
        ⟨.exited 1, [], ["Error writing file: " ++ e],
          fsWrite fs0 filename (content.take n)⟩
      | .ok =>
        let fs1 := fsWrite fs0 filename content
        match env.metadataOutcome with
        | .error _ => ⟨.panicked, [], [], fs1⟩
        | .ok len =>
          ⟨.exited 0, [successLine filename len], [], fs1⟩

/-- An environment is faithful for a successful run on `filename`, input
`S`, initial state `fs0` when stdin yields `S`, the write succeeds, and the
metadata query returns the byte length of the file the write just produced
on disk. -/
def FaithfulSuccess (env : Env) (S : String) : Prop :=
  env.stdinRead = .ok S ∧ env.writeOutcome = .ok ∧
    env.metadataOutcome = .ok S.utf8ByteSize

/-- Reading back a freshly written path yields exactly what was written. -/
theorem fsRead_fsWrite_self (fs : FS) (p c : String) :
    fsRead (fsWrite fs p c) p = some c := by
  simp [fsRead, fsWrite, List.find?]

/-- String concatenation is associative (on the underlying character data). -/
theorem string_append_assoc (a b c : String) : a ++ b ++ c = a ++ (b ++ c) := by
  apply String.ext
  simp [String.data_append, List.append_assoc]

/-- The success line regrouped: the prefix naming the file, then the
parenthesised byte count. -/
theorem successLine_split (P : String) (n : Nat) :
    successLine P n =
      "✓ Created: " ++ P ++ (" (" ++ toString n ++ " bytes)") := by
  show "✓ Created: " ++ P ++ " (" ++ toString n ++ " bytes)" =
    ("✓ Created: " ++ P) ++ ((" (" ++ toString n) ++ " bytes)")
  rw [string_append_assoc ("✓ Created: " ++ P) " (" (toString n),
    string_append_assoc ("✓ Created: " ++ P) (" (" ++ toString n) " bytes)"]

/-- The success line literally contains the filename and the printed count:
it is `"✓ Created: " ++ P ++ (rest mentioning len)`, and it splits around
`toString len`. -/
theorem successLine_contains (P : String) (len : Nat) :
    (∃ v, successLine P len = "✓ Created: " ++ P ++ v) ∧
    (∃ w x, successLine P len = w ++ toString len ++ x) :=
  ⟨⟨" (" ++ toString len ++ " bytes)", successLine_split P len⟩,
    ⟨"✓ Created: " ++ P ++ " (", " bytes)", rfl⟩⟩

/-- **C1.** For every valid text `S` and every writable path `P` (modelled
by a faithful environment: stdin yields `S`, the write succeeds, and the
metadata query reports the written file's byte length), running with first
positional argument `P` and standard input `S` exits with code 0, leaves a
file at `P` whose contents equal `S`, and prints exactly one line on
standard output — the success line, which contains `P` and the byte length
of `S` — and nothing on standard error. -/
theorem c1_success_run (a0 P S : String) (rest : List String) (env : Env)
    (fs0 : FS) (h : FaithfulSuccess env S) :
    (main_run (a0 :: P :: rest) env fs0).exit = .exited 0 ∧
    fsRead (main_run (a0 :: P :: rest) env fs0).fs P = some S ∧
    (main_run (a0 :: P :: rest) env fs0).stdout =
      [successLine P S.utf8ByteSize] ∧
    (main_run (a0 :: P :: rest) env fs0).stderr = [] ∧
    (∃ v, successLine P S.utf8ByteSize = "✓ Created: " ++ P ++ v) ∧
    (∃ w x, successLine P S.utf8ByteSize = w ++ toString S.utf8ByteSize ++ x) := by
  obtain ⟨h1, h2, h3⟩ := h
  refine ⟨?_, ?_, ?_, ?_, (successLine_contains P S.utf8ByteSize).1,
    (successLine_contains P S.utf8ByteSize).2⟩ <;>
    simp [main_run, h1, h2, h3, fsRead_fsWrite_self]

/-- Witness for C1 at `P = "out.txt"`, `S = "hi"`. -/
theorem c1_success_run_witness :
    (main_run ["prog", "out.txt"]
        ⟨Except.ok "hi", WriteOutcome.ok, Except.ok 2⟩ []).exit = .exited 0 ∧
    fsRead (main_run ["prog", "out.txt"]
        ⟨Except.ok "hi", WriteOutcome.ok, Except.ok 2⟩ []).fs "out.txt" = some "hi" := by
  have h := c1_success_run "prog" "out.txt" "hi" []
    ⟨Except.ok "hi", WriteOutcome.ok, Except.ok 2⟩ [] ⟨rfl, rfl, rfl⟩
  exact ⟨h.1, h.2.1⟩

/-- **C2 counterexample.** The claim says every failure — including a
failure of the post-write metadata query — terminates with exit code 1.
But line 23 calls `fs::metadata(filename).unwrap()`: when the metadata
query fails, the program panics (abnormal termination, exit code 101 in
Rust, not 1).  Concretely: args `["prog", "f"]`, stdin yields `"x"`, the
write succeeds, the metadata query fails. -/
theorem c2_counterexample :
    (main_run ["prog", "f"]
      ⟨Except.ok "x", WriteOutcome.ok, Except.error "stat failed"⟩ []).exit ≠
      ExitKind.exited 1 := by
  decide

/-- **C2 (amended).** A usage failure on a non-empty argument list, a
stdin-read failure, and a file-write failure (whether the file creation or
the subsequent write failed) each print a diagnostic on standard error and
terminate with exit code 1.  The two remaining failures do not exit with
code 1 and print no diagnostic of the program's own: a usage failure on an
empty argument list panics at the `args[0]` indexing, and a failure of the
post-write metadata query panics at the `unwrap`. -/
theorem c2_failures_exit_one (a0 f : String) (rest : List String) (env : Env)
    (fs0 : FS) :
    ((main_run [a0] env fs0).exit = .exited 1 ∧
      (main_run [a0] env fs0).stderr ≠ []) ∧
    ((main_run [] env fs0).exit = .panicked ∧
      (main_run [] env fs0).stderr = []) ∧
    (∀ e, env.stdinRead = .error e →
      (main_run (a0 :: f :: rest) env fs0).exit = .exited 1 ∧
      (main_run (a0 :: f :: rest) env fs0).stderr ≠ []) ∧
    (∀ c e, env.stdinRead = .ok c → env.writeOutcome = .createError e →
      (main_run (a0 :: f :: rest) env fs0).exit = .exited 1 ∧
      (main_run (a0 :: f :: rest) env fs0).stderr ≠ []) ∧
    (∀ c e n, env.stdinRead = .ok c → env.writeOutcome = .writeError e n →
      (main_run (a0 :: f :: rest) env fs0).exit = .exited 1 ∧
      (main_run (a0 :: f :: rest) env fs0).stderr ≠ []) ∧
    (∀ c e, env.stdinRead = .ok c → env.writeOutcome = .ok →
      env.metadataOutcome = .error e →
      (main_run (a0 :: f :: rest) env fs0).exit = .panicked) := by
  refine ⟨⟨rfl, by simp [main_run]⟩, ⟨rfl, rfl⟩, ?_, ?_, ?_, ?_⟩
  · intro e he
    simp [main_run, he]
  · intro c e hc he
    simp [main_run, hc, he]
  · intro c e n hc he
    simp [main_run, hc, he]
  · intro c e hc hw hm
    simp [main_run, hc, hw, hm]

/-- Witness for the amended C2: a concrete stdin failure exits 1, a
concrete partial-write failure exits 1, and a concrete metadata failure
panics. -/
theorem c2_failures_exit_one_witness :
    (main_run ["prog", "f"] ⟨Except.error "bad", WriteOutcome.ok, Except.ok 0⟩
      []).exit = .exited 1 ∧
    (main_run ["prog", "f"]
      ⟨Except.ok "x", WriteOutcome.writeError "full" 0, Except.ok 0⟩
      []).exit = .exited 1 ∧
    (main_run ["prog", "f"] ⟨Except.ok "x", WriteOutcome.ok, Except.error "gone"⟩
      []).exit = .panicked := by
  exact ⟨((c2_failures_exit_one "prog" "f" []
      ⟨Except.error "bad", WriteOutcome.ok, Except.ok 0⟩ []).2.2.1 "bad" rfl).1,
    ((c2_failures_exit_one "prog" "f" []
      ⟨Except.ok "x", WriteOutcome.writeError "full" 0, Except.ok 0⟩
      []).2.2.2.2.1 "x" "full" 0 rfl rfl).1,
    (c2_failures_exit_one "prog" "f" []
      ⟨Except.ok "x", WriteOutcome.ok, Except.error "gone"⟩ []).2.2.2.2.2
      "x" "gone" rfl rfl rfl⟩

/-- **C3.** When reading standard input fails with cause `e`, the program
prints exactly `Error reading stdin: <e>` on standard error, nothing on
standard output, exits with code 1, and the file system is untouched (the
write step is never reached). -/
theorem c3_stdin_read_failure (a0 f e : String) (rest : List String)
    (env : Env) (fs0 : FS) (h : env.stdinRead = .error e) :
    main_run (a0 :: f :: rest) env fs0 =
      ⟨.exited 1, [], ["Error reading stdin: " ++ e], fs0⟩ := by
  simp [main_run, h]

/-- Witness for C3 at a concrete failing stdin read. -/
theorem c3_stdin_read_failure_witness :
    main_run ["prog", "f"]
        ⟨Except.error "invalid utf-8", WriteOutcome.ok, Except.ok 0⟩
        [("f", "old")] =
      ⟨.exited 1, [], ["Error reading stdin: " ++ "invalid utf-8"],
        [("f", "old")]⟩ :=
  c3_stdin_read_failure "prog" "f" "invalid utf-8" []
    ⟨Except.error "invalid utf-8", WriteOutcome.ok, Except.ok 0⟩
    [("f", "old")] rfl

/-- **C4 counterexample.** The claim says that for every run in which the
write fails, no file is created at the target path.  But `fs::write` is
`File::create` followed by `write_all`: when the creation succeeds and the
subsequent write fails (e.g. disk full before any byte is stored), the run
exits 1 with the `Error writing file:` diagnostic and an (empty) file *is*
created at the target path. -/
theorem c4_counterexample :
    (main_run ["prog", "f"]
      ⟨Except.ok "data", WriteOutcome.writeError "No space left on device" 0,
        Except.ok 0⟩ []).exit = ExitKind.exited 1 ∧
    fsRead (main_run ["prog", "f"]
      ⟨Except.ok "data", WriteOutcome.writeError "No space left on device" 0,
        Except.ok 0⟩ []).fs "f" = some "" := by
  decide

/-- **C4 (amended).** When the file write fails with cause `e`, the program
prints exactly `Error writing file: <e>` on standard error, nothing on
standard output, and exits with code 1.  If the failure is in
creating/opening the file (e.g. a missing parent directory), the file
system is untouched — in particular, if no file existed at the target path
before the run, none exists after it.  If the file was created and the
subsequent write failed, a file holding a prefix of the input remains at
the target path (no rollback). -/
theorem c4_write_failure (a0 f c e : String) (n : Nat) (rest : List String)
    (env : Env) (fs0 : FS) (h1 : env.stdinRead = .ok c) :
    (env.writeOutcome = .createError e →
      main_run (a0 :: f :: rest) env fs0 =
        ⟨.exited 1, [], ["Error writing file: " ++ e], fs0⟩ ∧
      (fsRead fs0 f = none →
        fsRead (main_run (a0 :: f :: rest) env fs0).fs f = none)) ∧
    (env.writeOutcome = .writeError e n →
      main_run (a0 :: f :: rest) env fs0 =
        ⟨.exited 1, [], ["Error writing file: " ++ e],
          fsWrite fs0 f (c.take n)⟩ ∧
      fsRead (main_run (a0 :: f :: rest) env fs0).fs f = some (c.take n)) := by
  constructor
  · intro h2
    have hm : main_run (a0 :: f :: rest) env fs0 =
        ⟨.exited 1, [], ["Error writing file: " ++ e], fs0⟩ := by
      simp [main_run, h1, h2]
    exact ⟨hm, fun hnone => by rw [hm]; exact hnone⟩
  · intro h2
    have hm : main_run (a0 :: f :: rest) env fs0 =
        ⟨.exited 1, [], ["Error writing file: " ++ e],
          fsWrite fs0 f (c.take n)⟩ := by
      simp [main_run, h1, h2]
    exact ⟨hm, by rw [hm]; exact fsRead_fsWrite_self fs0 f (c.take n)⟩

/-- Witness for the amended C4: a concrete creation failure leaves no file
at the target path; a concrete partial-write failure leaves the
already-written prefix there. -/
theorem c4_write_failure_witness :
    main_run ["prog", "missing/dir/f"]
        ⟨Except.ok "data", WriteOutcome.createError "No such file or directory",
          Except.ok 0⟩ [] =
      ⟨.exited 1, [],
        ["Error writing file: " ++ "No such file or directory"], []⟩ ∧
    fsRead (main_run ["prog", "missing/dir/f"]
        ⟨Except.ok "data", WriteOutcome.createError "No such file or directory",
          Except.ok 0⟩ []).fs "missing/dir/f" = none ∧
    fsRead (main_run ["prog", "f"]
        ⟨Except.ok "data", WriteOutcome.writeError "disk full" 2,
          Except.ok 0⟩ []).fs "f" = some ("data".take 2) := by
  have h := c4_write_failure "prog" "missing/dir/f" "data"
    "No such file or directory" 0 []
    ⟨Except.ok "data", WriteOutcome.createError "No such file or directory",
      Except.ok 0⟩ [] rfl
  have h2 := c4_write_failure "prog" "f" "data" "disk full" 2 []
    ⟨Except.ok "data", WriteOutcome.writeError "disk full" 2,
      Except.ok 0⟩ [] rfl
  exact ⟨(h.1 rfl).1, (h.1 rfl).2 rfl, (h2.2 rfl).2⟩

/-- **C5.** With zero positional arguments (the argument list is just the
program name `a0`), the program exits with code 1 and prints exactly the
two usage lines on standard error, for every environment (standard input is
never read) and with the file system left untouched. -/
theorem c5_usage_error (a0 : String) (env : Env) (fs0 : FS) :
    main_run [a0] env fs0 =
      ⟨.exited 1, [],
        ["Usage: " ++ a0 ++ " <filename>", "Content will be read from stdin"],
        fs0⟩ :=
  rfl

/-- **C6.** Running the program with path `P` and input `S1`, and then
again with path `P` and input `S2` (both runs successful), leaves the file
at `P` with contents exactly `S2`: the second write truncates/overwrites,
nothing is appended. -/
theorem c6_second_run_overwrites (a0 P S1 S2 : String)
    (rest1 rest2 : List String) (env1 env2 : Env) (fs0 : FS)
    (h1 : FaithfulSuccess env1 S1) (h2 : FaithfulSuccess env2 S2) :
    fsRead (main_run (a0 :: P :: rest2) env2
      (main_run (a0 :: P :: rest1) env1 fs0).fs).fs P = some S2 := by
  obtain ⟨h1a, h1b, h1c⟩ := h1
  obtain ⟨h2a, h2b, h2c⟩ := h2
  simp [main_run, h1a, h1b, h1c, h2a, h2b, h2c, fsRead_fsWrite_self]

/-- Witness for C6: write `"first"` then `"second"` to `"f"`; the file ends
up holding `"second"`. -/
theorem c6_second_run_overwrites_witness :
    fsRead (main_run ["prog", "f"]
        ⟨Except.ok "second", WriteOutcome.ok, Except.ok 6⟩
        (main_run ["prog", "f"]
          ⟨Except.ok "first", WriteOutcome.ok, Except.ok 5⟩ []).fs).fs "f" =
      some "second" :=
  c6_second_run_overwrites "prog" "f" "first" "second" [] []
    ⟨Except.ok "first", WriteOutcome.ok, Except.ok 5⟩
    ⟨Except.ok "second", WriteOutcome.ok, Except.ok 6⟩ []
    ⟨rfl, rfl, rfl⟩ ⟨rfl, rfl, rfl⟩

/-- **C7.** On a successful run (faithful environment: the metadata query
reports the written file's on-disk byte length), the count printed in the
success line equals the byte size of the file at the target path in the
final file system; and for empty standard input the program succeeds and
prints a line ending in `(0 bytes)`. -/
theorem c7_reported_count_matches_disk (a0 P S : String) (rest : List String)
    (env : Env) (fs0 : FS) (h : FaithfulSuccess env S) :
    ((main_run (a0 :: P :: rest) env fs0).stdout =
        [successLine P S.utf8ByteSize] ∧
      (fsRead (main_run (a0 :: P :: rest) env fs0).fs P).map
          String.utf8ByteSize = some S.utf8ByteSize) ∧
    (S = "" →
      (main_run (a0 :: P :: rest) env fs0).exit = .exited 0 ∧
      (main_run (a0 :: P :: rest) env fs0).stdout =
        ["✓ Created: " ++ P ++ " (0 bytes)"]) := by
  obtain ⟨h1, h2, h3⟩ := h
  refine ⟨⟨?_, ?_⟩, ?_⟩
  · simp [main_run, h1, h2, h3]
  · simp [main_run, h1, h2, h3, fsRead_fsWrite_self]
  · rintro rfl
    refine ⟨by simp [main_run, h1, h2, h3], ?_⟩
    have h0 : (" (" ++ toString (String.utf8ByteSize "") ++ " bytes)" : String)
        = " (0 bytes)" := by decide
    simp only [main_run, h1, h2, h3]
    rw [successLine_split, h0]

/-- Witness for C7 at `S = ""`: the success line reads `(0 bytes)`. -/
theorem c7_reported_count_matches_disk_witness :
    (main_run ["prog", "out"] ⟨Except.ok "", WriteOutcome.ok, Except.ok 0⟩
        []).exit = .exited 0 ∧
    (main_run ["prog", "out"] ⟨Except.ok "", WriteOutcome.ok, Except.ok 0⟩
        []).stdout = ["✓ Created: " ++ "out" ++ " (0 bytes)"] :=
  (c7_reported_count_matches_disk "prog" "out" "" []
    ⟨Except.ok "", WriteOutcome.ok, Except.ok 0⟩ [] ⟨rfl, rfl, rfl⟩).2 rfl

/-- **C8.** With two or more positional arguments, the entire run result —
exit status, standard output, standard error, final file system — depends
only on the program name, the first positional argument, the environment
and the initial file system: the extra arguments are silently ignored. -/
theorem c8_extra_args_ignored (a0 a1 : String) (extra extra' : List String)
    (env : Env) (fs0 : FS) :
    main_run (a0 :: a1 :: extra) env fs0 =
      main_run (a0 :: a1 :: extra') env fs0 :=
  rfl

/-- **C9.** The usage branch indexes the argument list at position 0
(line 9, `args[0]`), which is in bounds only when the list is non-empty:
on an empty argument list the program panics before printing anything — it
does not print the usage message and does not exit with code 1 — while on a
one-element list the indexing is safe and the program exits with code 1. -/
theorem c9_empty_args_panics (env : Env) (fs0 : FS) :
    main_run [] env fs0 = ⟨.panicked, [], [], fs0⟩ ∧
    ∀ a0, (main_run [a0] env fs0).exit = .exited 1 :=
  ⟨rfl, fun _ => rfl⟩

/-- **C10.** The program is deterministic: two runs with equal argument
lists, equal standard-input outcomes, equal file-system responses (equal
environments) and equal initial file systems produce the same standard
output, the same standard error, the same exit status, and the same final
file system. -/
theorem c10_deterministic (args1 args2 : List String) (env1 env2 : Env)
    (fs1 fs2 : FS) (ha : args1 = args2) (he : env1 = env2)
    (hf : fs1 = fs2) :
    (main_run args1 env1 fs1).stdout = (main_run args2 env2 fs2).stdout ∧
    (main_run args1 env1 fs1).stderr = (main_run args2 env2 fs2).stderr ∧
    (main_run args1 env1 fs1).exit = (main_run args2 env2 fs2).exit ∧
    (main_run args1 env1 fs1).fs = (main_run args2 env2 fs2).fs := by
  subst ha; subst he; subst hf
  exact ⟨rfl, rfl, rfl, rfl⟩

/-- Witness for C10 at a concrete repeated run. -/
theorem c10_deterministic_witness :
    (main_run ["prog", "f"] ⟨Except.ok "x", WriteOutcome.ok, Except.ok 1⟩
        []).stdout =
      (main_run ["prog", "f"] ⟨Except.ok "x", WriteOutcome.ok, Except.ok 1⟩
        []).stdout :=
  (c10_deterministic ["prog", "f"] ["prog", "f"]
    ⟨Except.ok "x", WriteOutcome.ok, Except.ok 1⟩
    ⟨Except.ok "x", WriteOutcome.ok, Except.ok 1⟩ [] [] rfl rfl rfl).1

end StdinToFile
